import Mathlib

/-!
A shallow embedding of `forgot_password/handlers/forgot_password.py`: the
`user:forgot-password` and `user:forgot-password:test` lambda handlers and the
`TemplateMailSender` dispatcher. External collaborators (account store, token
issuer, template engine rendering, SMTP transport, caller context) are passed
in as explicit environments; observable side effects (log lines, template
lookups, render attempts, outbound mail) are recorded in an event trace
returned next to the handler's result. A raised exception is an
`Except.error`; the returned JSON body is `Response`.
-/

namespace ForgotPassword

/-- An account row as returned by the user lookup: an id and the stored email
address, which may be missing (or empty, which Python treats as falsy). -/
structure User where
  id : String
  email : Option String
deriving Repr, DecidableEq

/-- skygear `RecordID(record_type, key)`; opaque template context here. -/
structure RecordID where
  recordType : String
  key : String
deriving Repr, DecidableEq

/-- skygear `Record(id, owner_id, acl)`; opaque template context here. -/
structure Record where
  id : RecordID
  ownerID : String
  acl : Option (List String)
deriving Repr, DecidableEq

/-- The skygear error codes this handler raises. -/
inductive ErrorCode
  | InvalidArgument
  | UnexpectedError
  | AccessKeyNotAccepted
deriving Repr, DecidableEq

/-- `SkygearException(message, code)`. -/
structure SkygearException where
  message : String
  code : ErrorCode
deriving Repr, DecidableEq

/-- The success payload: the handlers return a dict holding one `status` key. -/
structure Response where
  status : String
deriving Repr, DecidableEq

/-- The plugin settings read at startup. -/
structure Settings where
  secure_match : Bool
  url_prefix : String
  reset_url_lifetime : Nat
  app_name : String
  sender : String
  subject : String
  reply_to : Option String
  email_text_url : Option String
  email_html_url : Option String
deriving Repr, DecidableEq

/-- SMTP settings; `host = none` models an unconfigured mail transport. -/
structure SMTPSettings where
  host : Option String
  port : Nat
  mode : String
  login : Option String
  password : Option String
deriving Repr, DecidableEq

/-- Templates held by the template provider. `fileBacked` stands for
`FileTemplate(name, filename, download_url, required)` and `literal` for
`StringTemplate(name, template_string)`, whose body may be absent, as in
`StringTemplate('reset_email_html', None)`. The rendering engine itself is
external and abstracted by `MailEnv.render`. -/
inductive Template
  | fileBacked (name filename : String) (download_url : Option String) (required : Bool)
  | literal (name : String) (content : Option String)
deriving Repr, DecidableEq

/-- The template parameter mapping both flows build (string-valued fields,
plus the user and the user record passed through as objects). -/
structure TemplateParams where
  appname : String
  link : String
  url_prefix : String
  email : String
  user_id : String
  code : String
  user : User
  user_record : Record
deriving Repr, DecidableEq

/-- Observable side effects of one handler invocation, in order:
`logError` and `logException` are the two logger calls, `templateResolved`
records a `template_provider.get_template(name)` lookup, `renderAttempt`
records a `template.render(**params)` call, and `mailSent` one outbound
message handed to the transport. -/
inductive Event
  | logError (msg : String)
  | logException (msg : String)
  | templateResolved (name : String)
  | renderAttempt (t : Template) (params : TemplateParams)
  | mailSent (sender recipient subject text html : String) (reply_to : Option String)
deriving Repr, DecidableEq

/-- Python truthiness of an optional string: `None` and `''` are falsy. -/
def truthy : Option String → Bool
  | none => false
  | some s => !s.isEmpty

/-- `add_templates(template_provider, settings)`: registers the two file
templates (text required, HTML optional) with the provider, modelled as a
name-indexed lookup. -/
def add_templates (template_provider : String → Template) (settings : Settings) :
    String → Template :=
  fun name =>
    if name = "reset_email_text" then
      Template.fileBacked "reset_email_text" "forgot_password_email.txt"
        settings.email_text_url true
    else if name = "reset_email_html" then
      Template.fileBacked "reset_email_html" "forgot_password_email.html"
        settings.email_html_url false
    else template_provider name

/-- External collaborators of the dispatcher: the template engine's render
(which may raise, hence `Except`) and the transport `Mailer(...).send_mail`,
taking the SMTP settings the mailer was built from, then sender, recipient,
subject, text body, html body and reply-to. -/
structure MailEnv where
  render : Template → TemplateParams → Except String String
  send_mail : SMTPSettings → String → String → String → String → String →
      Option String → Except String Unit

/-- `TemplateMailSender(template_provider, smtp_settings)`. -/
structure TemplateMailSender where
  template_provider : String → Template
  smtp_settings : SMTPSettings

/-- The template pair chosen inside `TemplateMailSender.send`: keyed on the
truthiness of `text_template_string` alone. The truthy branch builds both
parts as literal `StringTemplate`s (the HTML one from `html_template_string`
even when that is `None`); the other branch resolves both named templates
from the provider, recorded as `templateResolved` events. -/
def select_templates (template_provider : String → Template)
    (text_template_string html_template_string : Option String) :
    Template × Template × List Event :=
  if truthy text_template_string then
    (Template.literal "reset_email_text" text_template_string,
     Template.literal "reset_email_html" html_template_string, [])
  else
    (template_provider "reset_email_text", template_provider "reset_email_html",
     [Event.templateResolved "reset_email_text",
      Event.templateResolved "reset_email_html"])

/-- `TemplateMailSender.send`: fail fast when no SMTP host is configured,
else select templates, render the text part, render the HTML part, and hand
the message to the transport. The first component is the raised message
(`Except.error`) or success; the second the event trace. -/
def TemplateMailSender.send (m : TemplateMailSender) (env : MailEnv)
    (sender email subject : String)
    (text_template_string html_template_string reply_to : Option String)
    (template_params : TemplateParams) : Except String Unit × List Event :=
  match m.smtp_settings.host with
  | none =>
      (Except.error "mail server is not configured",
       [Event.logError "Mail server is not configured. Configure SMTP_HOST."])
  | some _ =>
      match select_templates m.template_provider text_template_string
          html_template_string with
      | (text_template, html_template, ev) =>
          match env.render text_template template_params with
          | Except.error e =>
              (Except.error e,
               ev ++ [Event.renderAttempt text_template template_params])
          | Except.ok textBody =>
              match env.render html_template template_params with
              | Except.error e =>
                  (Except.error e,
                   ev ++ [Event.renderAttempt text_template template_params,
                          Event.renderAttempt html_template template_params])
              | Except.ok htmlBody =>
                  match env.send_mail m.smtp_settings sender email subject
                      textBody htmlBody reply_to with
                  | Except.error e =>
                      (Except.error e,
                       ev ++ [Event.renderAttempt text_template template_params,
                              Event.renderAttempt html_template template_params])
                  | Except.ok _ =>
                      (Except.ok (),
                       ev ++ [Event.renderAttempt text_template template_params,
                              Event.renderAttempt html_template template_params,
                              Event.mailSent sender email subject textBody
                                htmlBody reply_to])

/-- External account store and token issuer: `user_util.get_user_from_email`,
`user_util.get_user_record` and `user_util.generate_code` (the code is an
abstract function of the user and the expiry timestamp). -/
structure DBEnv where
  get_user_from_email : String → Option User
  get_user_record : String → Record
  generate_code : User → Nat → String

/-- Drop one trailing slash from the configured URL head (the
`url_prefix.endswith('/')` check and `url_prefix[:-1]` slice both handlers
perform), stated on the character list so that it evaluates in the kernel. -/
def strip_trailing_slash (s : String) : String :=
  if s.data.getLast? = some '/' then String.mk s.data.dropLast else s

/-- The reset link format string of the real flow. -/
def reset_link (stripped code user_id : String) (expire_at : Nat) : String :=
  stripped ++ "/reset-password?code=" ++ code ++ "&user_id=" ++ user_id ++
    "&expire_at=" ++ toString expire_at

/-- The template parameter mapping of the real flow, with
`expire_at = now + settings.reset_url_lifetime`. -/
def forgot_password_params (settings : Settings) (db : DBEnv) (now : Nat)
    (user : User) : TemplateParams :=
  let expire_at := now + settings.reset_url_lifetime
  let code := db.generate_code user expire_at
  let stripped := strip_trailing_slash settings.url_prefix
  { appname := settings.app_name
    link := reset_link stripped code user.id expire_at
    url_prefix := stripped
    email := user.email.getD ""
    user_id := user.id
    code := code
    user := user
    user_record := db.get_user_record user.id }

/-- The `user:forgot-password` lambda. `now` is the current unix time rounded
to whole seconds (`round(datetime.utcnow().timestamp())`); the `email`
argument is `none` when the caller passed no email. -/
def forgot_password (settings : Settings) (mail_sender : TemplateMailSender)
    (db : DBEnv) (env : MailEnv) (now : Nat) (email : Option String) :
    Except SkygearException Response × List Event :=
  match email with
  | none =>
      (Except.error ⟨"email must be set", ErrorCode.InvalidArgument⟩, [])
  | some emailStr =>
      match db.get_user_from_email emailStr with
      | none =>
          if !settings.secure_match then (Except.ok ⟨"OK"⟩, [])
          else
            (Except.error ⟨"user_id must be set", ErrorCode.InvalidArgument⟩, [])
      | some user =>
          if !(truthy user.email) then
            (Except.error ⟨"email must be set", ErrorCode.InvalidArgument⟩, [])
          else
            match mail_sender.send env settings.sender (user.email.getD "")
                settings.subject none none settings.reply_to
                (forgot_password_params settings db now user) with
            | (Except.ok _, ev) => (Except.ok ⟨"OK"⟩, ev)
            | (Except.error ex, ev) =>
                (Except.error ⟨ex, ErrorCode.UnexpectedError⟩,
                 ev ++ [Event.logException
                   "An error occurred sending reset password email to user."])

/-- The fixed dummy account of the test flow. -/
def dummy_user : User := ⟨"dummy-id", some "dummy-user@example.com"⟩

/-- The dummy record of the test flow:
`Record(RecordID('user', 'dummy-id'), 'dummy-id', None)`. -/
def dummy_record : Record := ⟨⟨"user", "dummy-id"⟩, "dummy-id", none⟩

/-- The dummy template parameter mapping of the test flow. -/
def test_template_params (settings : Settings) : TemplateParams :=
  let stripped := strip_trailing_slash settings.url_prefix
  { appname := settings.app_name
    code := "dummy-reset-code"
    url_prefix := stripped
    link := stripped ++ "/example-reset-password-link"
    user_record := dummy_record
    user := dummy_user
    email := dummy_user.email.getD ""
    user_id := dummy_user.id }

/-- The `user:forgot-password:test` lambda. `access_key_type` is the value of
`current_context().get('access_key_type')`. -/
def test_forgot_password_email (settings : Settings)
    (mail_sender : TemplateMailSender) (env : MailEnv)
    (access_key_type : Option String) (email : String)
    (text_template html_template : Option String) :
    Except SkygearException Response × List Event :=
  if !(truthy access_key_type) || access_key_type != some "master" then
    (Except.error ⟨"master key is required", ErrorCode.AccessKeyNotAccepted⟩, [])
  else
    match mail_sender.send env settings.sender email settings.subject
        text_template html_template settings.reply_to
        (test_template_params settings) with
    | (Except.ok _, ev) => (Except.ok ⟨"OK"⟩, ev)
    | (Except.error ex, ev) =>
        (Except.error ⟨ex, ErrorCode.UnexpectedError⟩,
         ev ++ [Event.logException
           "An error occurred sending test reset password email to user."])

/-- True on the `logException` events of a trace. -/
def isLogException : Event → Bool
  | Event.logException _ => true
  | _ => false

/-- True on the `templateResolved` events of a trace. -/
def isTemplateResolved : Event → Bool
  | Event.templateResolved _ => true
  | _ => false

/-- True on the `mailSent` events of a trace. -/
def isMailSent : Event → Bool
  | Event.mailSent _ _ _ _ _ _ => true
  | _ => false

/-- Concrete settings used by the closed witnesses. -/
def sampleSettings : Settings :=
  ⟨false, "https://x/", 3600, "MyApp", "noreply@example.com", "Reset", none,
   none, none⟩

/-- Concrete settings with the secure-match policy on. -/
def sampleSecureSettings : Settings :=
  ⟨true, "https://x/", 3600, "MyApp", "noreply@example.com", "Reset", none,
   none, none⟩

/-- Concrete configured SMTP settings. -/
def sampleSmtp : SMTPSettings := ⟨some "smtp.example.com", 25, "normal", none, none⟩

/-- A provider holding the two default file templates. -/
def sampleProvider : String → Template :=
  add_templates (fun n => Template.literal n none) sampleSettings

/-- A dispatcher over the default templates and configured SMTP settings. -/
def sampleSender : TemplateMailSender := ⟨sampleProvider, sampleSmtp⟩

/-- A dispatcher whose SMTP host is not configured. -/
def sampleSenderNoHost : TemplateMailSender :=
  ⟨sampleProvider, ⟨none, 25, "normal", none, none⟩⟩

/-- A concrete account. -/
def sampleUser : User := ⟨"user-1", some "alice@example.com"⟩

/-- A store holding exactly `sampleUser`, with a deterministic issuer. -/
def sampleDB : DBEnv :=
  ⟨fun e => if e = "alice@example.com" then some sampleUser else none,
   fun i => ⟨⟨"user", i⟩, i, none⟩,
   fun u t => u.id ++ "-" ++ toString t⟩

/-- An environment whose rendering and transport both succeed. -/
def sampleEnv : MailEnv :=
  ⟨fun _ _ => Except.ok "body", fun _ _ _ _ _ _ _ => Except.ok ()⟩

/-- An environment whose rendering raises `boom`. -/
def failEnv : MailEnv :=
  ⟨fun _ _ => Except.error "boom", fun _ _ _ _ _ _ _ => Except.ok ()⟩

/-- Helper: with no SMTP host the dispatcher raises the configuration error
at once, with only the error log line in the trace. -/
theorem send_host_none (m : TemplateMailSender) (env : MailEnv)
    (sender email subject : String) (tts hts rt : Option String)
    (p : TemplateParams) (h : m.smtp_settings.host = none) :
    m.send env sender email subject tts hts rt p =
      (Except.error "mail server is not configured",
       [Event.logError "Mail server is not configured. Configure SMTP_HOST."]) := by
  unfold TemplateMailSender.send
  rw [h]

/-- Helper: the dispatcher's own trace never holds a `logException` event. -/
theorem send_filter_logException (m : TemplateMailSender) (env : MailEnv)
    (sender email subject : String) (tts hts rt : Option String)
    (p : TemplateParams) :
    ((m.send env sender email subject tts hts rt p).2.filter isLogException) = [] := by
  unfold TemplateMailSender.send
  cases hh : m.smtp_settings.host with
  | none => simp [isLogException]
  | some h =>
      rcases hsel : select_templates m.template_provider tts hts with ⟨tt, ht2, ev⟩
      have hev : ev.filter isLogException = [] := by
        unfold select_templates at hsel
        split at hsel <;>
          (injection hsel with h1 h2; injection h2 with h3 h4; subst h4;
           simp [isLogException])
      dsimp only
      rcases hr1 : env.render tt p with e | tb
      · simp [List.filter_append, hev, isLogException]
      · rcases hr2 : env.render ht2 p with e | hb
        · simp [List.filter_append, hev, isLogException]
        · rcases hr3 : env.send_mail m.smtp_settings sender email subject tb hb rt
            with e | u <;> simp [hr3, List.filter_append, hev, isLogException]

/-- Helper: once the host check passes, the text template chosen by
`select_templates` is render-attempted on the given parameters, whatever the
rendering or the transport then do. -/
theorem send_trace_renderAttempt (m : TemplateMailSender) (env : MailEnv)
    (sender email subject : String) (tts hts rt : Option String)
    (p : TemplateParams) (hst : String)
    (hh : m.smtp_settings.host = some hst) :
    Event.renderAttempt (select_templates m.template_provider tts hts).1 p ∈
      (m.send env sender email subject tts hts rt p).2 := by
  unfold TemplateMailSender.send
  rw [hh]
  rcases hsel : select_templates m.template_provider tts hts with ⟨tt, ht2, ev⟩
  dsimp only
  rcases hr1 : env.render tt p with e | tb
  · simp
  · rcases hr2 : env.render ht2 p with e | hb
    · simp
    · rcases hr3 : env.send_mail m.smtp_settings sender email subject tb hb rt
        with e | u <;> simp [hr3]

/-- Helper: the text file template the provider holds after `add_templates`. -/
theorem add_templates_text (base : String → Template) (settings : Settings) :
    add_templates base settings "reset_email_text" =
      Template.fileBacked "reset_email_text" "forgot_password_email.txt"
        settings.email_text_url true := by
  simp [add_templates]

/-- Helper: the HTML file template the provider holds after `add_templates`,
registered as optional (`required = false`). -/
theorem add_templates_html (base : String → Template) (settings : Settings) :
    add_templates base settings "reset_email_html" =
      Template.fileBacked "reset_email_html" "forgot_password_email.html"
        settings.email_html_url false := by
  simp [add_templates]

/-- C1: when account resolution finds no matching account, the handler
returns the OK payload with an empty trace (so no dispatch and no log) when
secure match is off, and raises InvalidArgument with an empty trace when
secure match is on. -/
theorem forgot_password_account_not_found (settings : Settings)
    (mail_sender : TemplateMailSender) (db : DBEnv) (env : MailEnv) (now : Nat)
    (e : String) (h : db.get_user_from_email e = none) :
    (settings.secure_match = false →
      forgot_password settings mail_sender db env now (some e) =
        (Except.ok ⟨"OK"⟩, [])) ∧
    (settings.secure_match = true →
      forgot_password settings mail_sender db env now (some e) =
        (Except.error ⟨"user_id must be set", ErrorCode.InvalidArgument⟩, [])) := by
  unfold forgot_password
  dsimp only
  rw [h]
  constructor <;> intro hs <;> simp [hs]

/-- Witness for C1: a concrete store with no account for the given email,
under both secure-match settings. -/
theorem forgot_password_account_not_found_witness :
    (sampleDB.get_user_from_email "bob@example.com" = none ∧
      sampleSettings.secure_match = false ∧
      forgot_password sampleSettings sampleSender sampleDB sampleEnv 1700000000
        (some "bob@example.com") = (Except.ok ⟨"OK"⟩, [])) ∧
    (sampleSecureSettings.secure_match = true ∧
      forgot_password sampleSecureSettings sampleSender sampleDB sampleEnv
        1700000000 (some "bob@example.com") =
        (Except.error ⟨"user_id must be set", ErrorCode.InvalidArgument⟩, [])) := by
  have h : sampleDB.get_user_from_email "bob@example.com" = none := by decide
  exact ⟨⟨h, rfl,
      (forgot_password_account_not_found sampleSettings sampleSender sampleDB
        sampleEnv 1700000000 "bob@example.com" h).1 rfl⟩,
    ⟨rfl,
      (forgot_password_account_not_found sampleSecureSettings sampleSender
        sampleDB sampleEnv 1700000000 "bob@example.com" h).2 rfl⟩⟩

/-- C2 as stated is false: an empty-string email is not rejected before
resolution. With secure match off and no account for the empty string, the
handler returns the OK payload instead of InvalidArgument. -/
theorem forgot_password_empty_email_not_rejected :
    forgot_password sampleSettings sampleSender sampleDB sampleEnv 1700000000
      (some "") = (Except.ok ⟨"OK"⟩, []) := rfl

/-- C2 amended: an absent (None) email is rejected with InvalidArgument and
an empty trace (no email sent), before account resolution: the result is the
same whatever the account store holds. -/
theorem forgot_password_absent_email_invalid_argument (settings : Settings)
    (mail_sender : TemplateMailSender) (db : DBEnv) (env : MailEnv) (now : Nat) :
    forgot_password settings mail_sender db env now none =
      (Except.error ⟨"email must be set", ErrorCode.InvalidArgument⟩, []) := rfl

/-- C6: with an unconfigured transport (no SMTP host) every dispatch attempt
fails at once with the configuration error; the trace holds only the error
log line, so no template was resolved and nothing was rendered, whatever the
provider and the rendering engine are. -/
theorem send_unconfigured_fails_fast (m : TemplateMailSender) (env : MailEnv)
    (sender email subject : String) (tts hts rt : Option String)
    (p : TemplateParams) (h : m.smtp_settings.host = none) :
    m.send env sender email subject tts hts rt p =
      (Except.error "mail server is not configured",
       [Event.logError "Mail server is not configured. Configure SMTP_HOST."]) :=
  send_host_none m env sender email subject tts hts rt p h

/-- Witness for C6 at a concrete unconfigured dispatcher. -/
theorem send_unconfigured_fails_fast_witness :
    sampleSenderNoHost.smtp_settings.host = none ∧
    sampleSenderNoHost.send sampleEnv "noreply@example.com" "alice@example.com"
      "Reset" none none none (test_template_params sampleSettings) =
      (Except.error "mail server is not configured",
       [Event.logError "Mail server is not configured. Configure SMTP_HOST."]) :=
  ⟨rfl, send_unconfigured_fails_fast sampleSenderNoHost sampleEnv
    "noreply@example.com" "alice@example.com" "Reset" none none none
    (test_template_params sampleSettings) rfl⟩

/-- Helper: once the account is resolved with a usable email, the real flow
is the dispatcher call followed by the OK / error translation. -/
theorem forgot_password_resolved (settings : Settings)
    (mail_sender : TemplateMailSender) (db : DBEnv) (env : MailEnv) (now : Nat)
    (e : String) (user : User)
    (hu : db.get_user_from_email e = some user)
    (he : truthy user.email = true) :
    forgot_password settings mail_sender db env now (some e) =
      match mail_sender.send env settings.sender (user.email.getD "")
          settings.subject none none settings.reply_to
          (forgot_password_params settings db now user) with
      | (Except.ok _, ev) => (Except.ok ⟨"OK"⟩, ev)
      | (Except.error ex, ev) =>
          (Except.error ⟨ex, ErrorCode.UnexpectedError⟩,
           ev ++ [Event.logException
             "An error occurred sending reset password email to user."]) := by
  unfold forgot_password
  dsimp only
  rw [hu]
  simp [he]

/-- Helper: with the master key the test flow is the dispatcher call followed
by the OK / error translation. -/
theorem test_forgot_password_master (settings : Settings)
    (mail_sender : TemplateMailSender) (env : MailEnv) (email : String)
    (text_template html_template : Option String) :
    test_forgot_password_email settings mail_sender env (some "master") email
      text_template html_template =
      match mail_sender.send env settings.sender email settings.subject
          text_template html_template settings.reply_to
          (test_template_params settings) with
      | (Except.ok _, ev) => (Except.ok ⟨"OK"⟩, ev)
      | (Except.error ex, ev) =>
          (Except.error ⟨ex, ErrorCode.UnexpectedError⟩,
           ev ++ [Event.logException
             "An error occurred sending test reset password email to user."]) := by
  unfold test_forgot_password_email
  rfl

/-- C10: an unconfigured transport reaches the RPC caller of either flow as
the same kind as any other dispatch failure: UnexpectedError carrying exactly
the message of the raised configuration exception. -/
theorem unconfigured_transport_rpc_error (settings : Settings)
    (mail_sender : TemplateMailSender) (db : DBEnv) (env : MailEnv) (now : Nat)
    (e : String) (user : User) (email : String)
    (text_template html_template : Option String)
    (hh : mail_sender.smtp_settings.host = none)
    (hu : db.get_user_from_email e = some user)
    (he : truthy user.email = true) :
    forgot_password settings mail_sender db env now (some e) =
      (Except.error ⟨"mail server is not configured", ErrorCode.UnexpectedError⟩,
       [Event.logError "Mail server is not configured. Configure SMTP_HOST.",
        Event.logException
          "An error occurred sending reset password email to user."]) ∧
    test_forgot_password_email settings mail_sender env (some "master") email
      text_template html_template =
      (Except.error ⟨"mail server is not configured", ErrorCode.UnexpectedError⟩,
       [Event.logError "Mail server is not configured. Configure SMTP_HOST.",
        Event.logException
          "An error occurred sending test reset password email to user."]) := by
  constructor
  · rw [forgot_password_resolved settings mail_sender db env now e user hu he,
      send_host_none _ _ _ _ _ _ _ _ _ hh]
    rfl
  · rw [test_forgot_password_master settings mail_sender env email
      text_template html_template, send_host_none _ _ _ _ _ _ _ _ _ hh]
    rfl

/-- Witness for C10 at a concrete unconfigured dispatcher, for both flows. -/
theorem unconfigured_transport_rpc_error_witness :
    sampleSenderNoHost.smtp_settings.host = none ∧
    forgot_password sampleSettings sampleSenderNoHost sampleDB sampleEnv
      1700000000 (some "alice@example.com") =
      (Except.error ⟨"mail server is not configured", ErrorCode.UnexpectedError⟩,
       [Event.logError "Mail server is not configured. Configure SMTP_HOST.",
        Event.logException
          "An error occurred sending reset password email to user."]) ∧
    test_forgot_password_email sampleSettings sampleSenderNoHost sampleEnv
      (some "master") "op@example.com" none none =
      (Except.error ⟨"mail server is not configured", ErrorCode.UnexpectedError⟩,
       [Event.logError "Mail server is not configured. Configure SMTP_HOST.",
        Event.logException
          "An error occurred sending test reset password email to user."]) :=
  ⟨rfl,
    unconfigured_transport_rpc_error sampleSettings sampleSenderNoHost sampleDB
      sampleEnv 1700000000 "alice@example.com" sampleUser "op@example.com"
      none none rfl (by decide) rfl⟩

/-- C4: an exception raised inside rendering or transport surfaces, in either
flow, as UnexpectedError carrying exactly the underlying message, after an
exception log appended to the dispatcher's events; the full trace holds that
one exception log and no other. -/
theorem send_failure_surfaces_unexpected_error (settings : Settings)
    (mail_sender : TemplateMailSender) (db : DBEnv) (env : MailEnv) (now : Nat)
    (e : String) (user : User) (email : String) (msg msg2 : String)
    (ev ev2 : List Event) (tts hts : Option String)
    (hu : db.get_user_from_email e = some user)
    (he : truthy user.email = true)
    (hsend : mail_sender.send env settings.sender (user.email.getD "")
        settings.subject none none settings.reply_to
        (forgot_password_params settings db now user) = (Except.error msg, ev))
    (hsend2 : mail_sender.send env settings.sender email settings.subject
        tts hts settings.reply_to (test_template_params settings) =
        (Except.error msg2, ev2)) :
    (forgot_password settings mail_sender db env now (some e) =
       (Except.error ⟨msg, ErrorCode.UnexpectedError⟩,
        ev ++ [Event.logException
          "An error occurred sending reset password email to user."]) ∧
     ((ev ++ [Event.logException
          "An error occurred sending reset password email to user."]).filter
        isLogException).length = 1) ∧
    (test_forgot_password_email settings mail_sender env (some "master") email
       tts hts =
       (Except.error ⟨msg2, ErrorCode.UnexpectedError⟩,
        ev2 ++ [Event.logException
          "An error occurred sending test reset password email to user."]) ∧
     ((ev2 ++ [Event.logException
          "An error occurred sending test reset password email to user."]).filter
        isLogException).length = 1) := by
  have hev : ev.filter isLogException = [] := by
    have h0 := send_filter_logException mail_sender env settings.sender
      (user.email.getD "") settings.subject none none settings.reply_to
      (forgot_password_params settings db now user)
    rw [hsend] at h0
    exact h0
  have hev2 : ev2.filter isLogException = [] := by
    have h0 := send_filter_logException mail_sender env settings.sender email
      settings.subject tts hts settings.reply_to (test_template_params settings)
    rw [hsend2] at h0
    exact h0
  refine ⟨⟨?_, ?_⟩, ?_, ?_⟩
  · rw [forgot_password_resolved settings mail_sender db env now e user hu he,
      hsend]
  · simp [List.filter_append, hev, isLogException]
  · rw [test_forgot_password_master settings mail_sender env email tts hts,
      hsend2]
  · simp [List.filter_append, hev2, isLogException]

/-- Witness for C4: a rendering engine that raises boom, in both flows. -/
theorem send_failure_surfaces_unexpected_error_witness :
    (forgot_password sampleSettings sampleSender sampleDB failEnv 1700000000
        (some "alice@example.com") =
      (Except.error ⟨"boom", ErrorCode.UnexpectedError⟩,
       [Event.templateResolved "reset_email_text",
        Event.templateResolved "reset_email_html",
        Event.renderAttempt
          (Template.fileBacked "reset_email_text" "forgot_password_email.txt"
            none true)
          (forgot_password_params sampleSettings sampleDB 1700000000 sampleUser),
        Event.logException
          "An error occurred sending reset password email to user."]) ∧
     (([Event.templateResolved "reset_email_text",
        Event.templateResolved "reset_email_html",
        Event.renderAttempt
          (Template.fileBacked "reset_email_text" "forgot_password_email.txt"
            none true)
          (forgot_password_params sampleSettings sampleDB 1700000000 sampleUser)] ++
       [Event.logException
          "An error occurred sending reset password email to user."]).filter
        isLogException).length = 1) ∧
    (test_forgot_password_email sampleSettings sampleSender failEnv
        (some "master") "op@example.com" none none =
      (Except.error ⟨"boom", ErrorCode.UnexpectedError⟩,
       [Event.templateResolved "reset_email_text",
        Event.templateResolved "reset_email_html",
        Event.renderAttempt
          (Template.fileBacked "reset_email_text" "forgot_password_email.txt"
            none true)
          (test_template_params sampleSettings),
        Event.logException
          "An error occurred sending test reset password email to user."]) ∧
     (([Event.templateResolved "reset_email_text",
        Event.templateResolved "reset_email_html",
        Event.renderAttempt
          (Template.fileBacked "reset_email_text" "forgot_password_email.txt"
            none true)
          (test_template_params sampleSettings)] ++
       [Event.logException
          "An error occurred sending test reset password email to user."]).filter
        isLogException).length = 1) :=
  send_failure_surfaces_unexpected_error sampleSettings sampleSender sampleDB
    failEnv 1700000000 "alice@example.com" sampleUser "op@example.com"
    "boom" "boom"
    [Event.templateResolved "reset_email_text",
     Event.templateResolved "reset_email_html",
     Event.renderAttempt
       (Template.fileBacked "reset_email_text" "forgot_password_email.txt"
         none true)
       (forgot_password_params sampleSettings sampleDB 1700000000 sampleUser)]
    [Event.templateResolved "reset_email_text",
     Event.templateResolved "reset_email_html",
     Event.renderAttempt
       (Template.fileBacked "reset_email_text" "forgot_password_email.txt"
         none true)
       (test_template_params sampleSettings)]
    none none (by decide) rfl rfl rfl

/-- C3: the link the resolved flow renders is exactly the stripped URL head,
the fixed path and query names, the issued code, the account id and the
expiry, with the expiry equal to the rounded current unix time plus the
configured lifetime; that parameter set reaches the rendering of the chosen
text template whenever the transport is configured. -/
theorem forgot_password_reset_link_format (settings : Settings)
    (mail_sender : TemplateMailSender) (db : DBEnv) (env : MailEnv) (now : Nat)
    (e : String) (user : User) (hst : String)
    (hu : db.get_user_from_email e = some user)
    (he : truthy user.email = true)
    (hh : mail_sender.smtp_settings.host = some hst) :
    (forgot_password_params settings db now user).link =
      strip_trailing_slash settings.url_prefix ++ "/reset-password?code=" ++
        db.generate_code user (now + settings.reset_url_lifetime) ++
        "&user_id=" ++ user.id ++ "&expire_at=" ++
        toString (now + settings.reset_url_lifetime) ∧
    Event.renderAttempt
        (select_templates mail_sender.template_provider none none).1
        (forgot_password_params settings db now user) ∈
      (forgot_password settings mail_sender db env now (some e)).2 := by
  constructor
  · rfl
  · rw [forgot_password_resolved settings mail_sender db env now e user hu he]
    have hmem := send_trace_renderAttempt mail_sender env settings.sender
      (user.email.getD "") settings.subject none none settings.reply_to
      (forgot_password_params settings db now user) hst hh
    rcases hs : mail_sender.send env settings.sender (user.email.getD "")
        settings.subject none none settings.reply_to
        (forgot_password_params settings db now user) with ⟨r, ev⟩
    rw [hs] at hmem
    cases r with
    | ok u => exact hmem
    | error ex => exact List.mem_append_left _ hmem

/-- Witness for C3 at a concrete resolved account. -/
theorem forgot_password_reset_link_format_witness :
    truthy sampleUser.email = true ∧
    (forgot_password_params sampleSettings sampleDB 1700000000 sampleUser).link =
      strip_trailing_slash sampleSettings.url_prefix ++ "/reset-password?code=" ++
        sampleDB.generate_code sampleUser
          (1700000000 + sampleSettings.reset_url_lifetime) ++
        "&user_id=" ++ sampleUser.id ++ "&expire_at=" ++
        toString (1700000000 + sampleSettings.reset_url_lifetime) ∧
    Event.renderAttempt
        (select_templates sampleSender.template_provider none none).1
        (forgot_password_params sampleSettings sampleDB 1700000000 sampleUser) ∈
      (forgot_password sampleSettings sampleSender sampleDB sampleEnv
        1700000000 (some "alice@example.com")).2 :=
  ⟨rfl,
    forgot_password_reset_link_format sampleSettings sampleSender sampleDB
      sampleEnv 1700000000 "alice@example.com" sampleUser "smtp.example.com"
      (by decide) rfl rfl⟩

/-- C7: with the URL head https://x/ the trailing slash is stripped exactly
once, and every generated link starts with https://x/reset-password? and
never with https://x//reset-password, whatever code the issuer returns. -/
theorem trailing_slash_stripped_once (db : DBEnv) (now : Nat) (user : User) :
    sampleSettings.url_prefix = "https://x/" ∧
    strip_trailing_slash sampleSettings.url_prefix = "https://x" ∧
    (forgot_password_params sampleSettings db now user).link.data.take 25 =
      "https://x/reset-password?".data ∧
    (forgot_password_params sampleSettings db now user).link.data.take 25 ≠
      "https://x//reset-password".data := by
  have h1 : ("https://x" ++ "/reset-password?code=" : String) =
      "https://x/reset-password?code=" := rfl
  have hdata : (forgot_password_params sampleSettings db now user).link.data =
      "https://x/reset-password?code=".data ++
        ((db.generate_code user (now + 3600)).data ++
          ("&user_id=".data ++ (user.id.data ++
            ("&expire_at=".data ++ (toString (now + 3600)).data)))) := by
    show (reset_link (strip_trailing_slash sampleSettings.url_prefix)
        (db.generate_code user (now + sampleSettings.reset_url_lifetime))
        user.id (now + sampleSettings.reset_url_lifetime)).data = _
    rw [show strip_trailing_slash sampleSettings.url_prefix = "https://x"
      from by decide]
    unfold reset_link
    rw [show sampleSettings.reset_url_lifetime = 3600 from rfl, h1]
    simp [String.data_append, List.append_assoc]
  have htake : (forgot_password_params sampleSettings db now user).link.data.take 25 =
      "https://x/reset-password?".data := by
    rw [hdata, List.take_append_eq_append_take,
      show ("https://x/reset-password?code=".data.length) = 30 from by decide,
      show (25 - 30 : Nat) = 0 from rfl, List.take_zero, List.append_nil]
    decide
  refine ⟨rfl, by decide, htake, ?_⟩
  rw [htake]
  decide

/-- Helper: with no text override the dispatcher resolves both named
templates from the provider, whatever the HTML override holds. -/
theorem select_templates_default (tp : String → Template) (hts : Option String) :
    select_templates tp none hts =
      (tp "reset_email_text", tp "reset_email_html",
       [Event.templateResolved "reset_email_text",
        Event.templateResolved "reset_email_html"]) := rfl

/-- Helper: with a truthy text override both parts are literal templates and
no provider lookup happens. -/
theorem select_templates_override (tp : String → Template) (t : String)
    (hts : Option String) (hne : truthy (some t) = true) :
    select_templates tp (some t) hts =
      (Template.literal "reset_email_text" (some t),
       Template.literal "reset_email_html" hts, []) := by
  unfold select_templates
  rw [hne]
  simp

/-- C9: template selection in the dispatcher is keyed solely on the presence
of the text override: with only a truthy text override the HTML part is built
as a literal template holding the absent (none) override and the trace shows
no provider lookup; with only an HTML override the dispatcher behaves exactly
as with no overrides at all, resolving both file-backed defaults from the
provider. -/
theorem send_selection_keyed_on_text_override (m : TemplateMailSender)
    (env : MailEnv) (sender email subject : String) (rt : Option String)
    (p : TemplateParams) (t h hst a : String)
    (hne : truthy (some t) = true)
    (hh : m.smtp_settings.host = some hst)
    (hr : env.render (Template.literal "reset_email_text" (some t)) p =
      Except.ok a) :
    (select_templates m.template_provider (some t) none =
       (Template.literal "reset_email_text" (some t),
        Template.literal "reset_email_html" none, []) ∧
     Event.renderAttempt (Template.literal "reset_email_html" none) p ∈
       (m.send env sender email subject (some t) none rt p).2 ∧
     ((m.send env sender email subject (some t) none rt p).2.filter
        isTemplateResolved) = []) ∧
    (m.send env sender email subject none (some h) rt p =
       m.send env sender email subject none none rt p ∧
     select_templates m.template_provider none (some h) =
       (m.template_provider "reset_email_text",
        m.template_provider "reset_email_html",
        [Event.templateResolved "reset_email_text",
         Event.templateResolved "reset_email_html"])) := by
  have hsel1 : select_templates m.template_provider (some t) none =
      (Template.literal "reset_email_text" (some t),
       Template.literal "reset_email_html" none, []) :=
    select_templates_override m.template_provider t none hne
  have hbody : Event.renderAttempt (Template.literal "reset_email_html" none) p ∈
      (m.send env sender email subject (some t) none rt p).2 ∧
      ((m.send env sender email subject (some t) none rt p).2.filter
        isTemplateResolved) = [] := by
    unfold TemplateMailSender.send
    rw [hh, hsel1]
    dsimp only
    rw [hr]
    dsimp only
    rcases hr2 : env.render (Template.literal "reset_email_html" none) p
      with e2 | hb
    · constructor <;> simp [hr2, isTemplateResolved]
    · rcases hr3 : env.send_mail m.smtp_settings sender email subject a hb rt
        with e3 | u <;> constructor <;> simp [hr2, hr3, isTemplateResolved]
  exact ⟨⟨hsel1, hbody.1, hbody.2⟩, rfl, rfl⟩

/-- Witness for C9 at a concrete dispatcher with a succeeding engine. -/
theorem send_selection_keyed_on_text_override_witness :
    (select_templates sampleSender.template_provider (some "TXT") none =
       (Template.literal "reset_email_text" (some "TXT"),
        Template.literal "reset_email_html" none, []) ∧
     Event.renderAttempt (Template.literal "reset_email_html" none)
        (test_template_params sampleSettings) ∈
       (sampleSender.send sampleEnv "noreply@example.com" "op@example.com"
         "Reset" (some "TXT") none none
         (test_template_params sampleSettings)).2 ∧
     ((sampleSender.send sampleEnv "noreply@example.com" "op@example.com"
         "Reset" (some "TXT") none none
         (test_template_params sampleSettings)).2.filter
        isTemplateResolved) = []) ∧
    (sampleSender.send sampleEnv "noreply@example.com" "op@example.com"
       "Reset" none (some "HTML") none (test_template_params sampleSettings) =
       sampleSender.send sampleEnv "noreply@example.com" "op@example.com"
         "Reset" none none none (test_template_params sampleSettings) ∧
     select_templates sampleSender.template_provider none (some "HTML") =
       (sampleSender.template_provider "reset_email_text",
        sampleSender.template_provider "reset_email_html",
        [Event.templateResolved "reset_email_text",
         Event.templateResolved "reset_email_html"])) :=
  send_selection_keyed_on_text_override sampleSender sampleEnv
    "noreply@example.com" "op@example.com" "Reset" none
    (test_template_params sampleSettings) "TXT" "HTML" "smtp.example.com"
    "body" rfl rfl rfl

/-- C5: with the master key and a configured transport, the dummy payload is
id dummy-id, email dummy-user@example.com, code dummy-reset-code and the
placeholder link under the stripped URL head; with no overrides the two
file-backed default templates are resolved from the provider and rendered
with that payload, and the message goes to the caller-supplied address; with
truthy override strings the literal overrides are rendered instead, with no
provider lookup, and the message still goes to the caller-supplied address. -/
theorem test_email_template_selection_and_dispatch (settings : Settings)
    (base : String → Template) (env : MailEnv) (email : String)
    (hst t h a b a2 b2 : String) (mail_sender : TemplateMailSender)
    (hprov : mail_sender.template_provider = add_templates base settings)
    (hh : mail_sender.smtp_settings.host = some hst)
    (hne : truthy (some t) = true)
    (hra : env.render
        (Template.fileBacked "reset_email_text" "forgot_password_email.txt"
          settings.email_text_url true)
        (test_template_params settings) = Except.ok a)
    (hrb : env.render
        (Template.fileBacked "reset_email_html" "forgot_password_email.html"
          settings.email_html_url false)
        (test_template_params settings) = Except.ok b)
    (hta : env.send_mail mail_sender.smtp_settings settings.sender email
        settings.subject a b settings.reply_to = Except.ok ())
    (hra2 : env.render (Template.literal "reset_email_text" (some t))
        (test_template_params settings) = Except.ok a2)
    (hrb2 : env.render (Template.literal "reset_email_html" (some h))
        (test_template_params settings) = Except.ok b2)
    (hta2 : env.send_mail mail_sender.smtp_settings settings.sender email
        settings.subject a2 b2 settings.reply_to = Except.ok ()) :
    (test_template_params settings).user_id = "dummy-id" ∧
    (test_template_params settings).email = "dummy-user@example.com" ∧
    (test_template_params settings).code = "dummy-reset-code" ∧
    (test_template_params settings).link =
      strip_trailing_slash settings.url_prefix ++
        "/example-reset-password-link" ∧
    test_forgot_password_email settings mail_sender env (some "master") email
      none none =
      (Except.ok ⟨"OK"⟩,
       [Event.templateResolved "reset_email_text",
        Event.templateResolved "reset_email_html",
        Event.renderAttempt
          (Template.fileBacked "reset_email_text" "forgot_password_email.txt"
            settings.email_text_url true) (test_template_params settings),
        Event.renderAttempt
          (Template.fileBacked "reset_email_html" "forgot_password_email.html"
            settings.email_html_url false) (test_template_params settings),
        Event.mailSent settings.sender email settings.subject a b
          settings.reply_to]) ∧
    test_forgot_password_email settings mail_sender env (some "master") email
      (some t) (some h) =
      (Except.ok ⟨"OK"⟩,
       [Event.renderAttempt (Template.literal "reset_email_text" (some t))
          (test_template_params settings),
        Event.renderAttempt (Template.literal "reset_email_html" (some h))
          (test_template_params settings),
        Event.mailSent settings.sender email settings.subject a2 b2
          settings.reply_to]) := by
  refine ⟨rfl, rfl, rfl, rfl, ?_, ?_⟩
  · rw [test_forgot_password_master]
    unfold TemplateMailSender.send
    rw [hh, hprov, select_templates_default, add_templates_text base settings,
      add_templates_html base settings]
    dsimp only
    rw [hra]
    dsimp only
    rw [hrb]
    dsimp only
    rw [hta]
    rfl
  · rw [test_forgot_password_master]
    unfold TemplateMailSender.send
    rw [hh, hprov, select_templates_override (add_templates base settings) t
      (some h) hne]
    dsimp only
    rw [hra2]
    dsimp only
    rw [hrb2]
    dsimp only
    rw [hta2]
    rfl

/-- Witness for C5 at a concrete provider, engine and transport. -/
theorem test_email_template_selection_and_dispatch_witness :
    (test_template_params sampleSettings).user_id = "dummy-id" ∧
    (test_template_params sampleSettings).email = "dummy-user@example.com" ∧
    (test_template_params sampleSettings).code = "dummy-reset-code" ∧
    (test_template_params sampleSettings).link =
      strip_trailing_slash sampleSettings.url_prefix ++
        "/example-reset-password-link" ∧
    test_forgot_password_email sampleSettings sampleSender sampleEnv
      (some "master") "op@example.com" none none =
      (Except.ok ⟨"OK"⟩,
       [Event.templateResolved "reset_email_text",
        Event.templateResolved "reset_email_html",
        Event.renderAttempt
          (Template.fileBacked "reset_email_text" "forgot_password_email.txt"
            sampleSettings.email_text_url true)
          (test_template_params sampleSettings),
        Event.renderAttempt
          (Template.fileBacked "reset_email_html" "forgot_password_email.html"
            sampleSettings.email_html_url false)
          (test_template_params sampleSettings),
        Event.mailSent sampleSettings.sender "op@example.com"
          sampleSettings.subject "body" "body" sampleSettings.reply_to]) ∧
    test_forgot_password_email sampleSettings sampleSender sampleEnv
      (some "master") "op@example.com" (some "TXT") (some "HTML") =
      (Except.ok ⟨"OK"⟩,
       [Event.renderAttempt (Template.literal "reset_email_text" (some "TXT"))
          (test_template_params sampleSettings),
        Event.renderAttempt (Template.literal "reset_email_html" (some "HTML"))
          (test_template_params sampleSettings),
        Event.mailSent sampleSettings.sender "op@example.com"
          sampleSettings.subject "body" "body" sampleSettings.reply_to]) :=
  test_email_template_selection_and_dispatch sampleSettings
    (fun n => Template.literal n none) sampleEnv "op@example.com"
    "smtp.example.com" "TXT" "HTML" "body" "body" "body" "body" sampleSender
    rfl rfl rfl rfl rfl rfl rfl rfl rfl

/-- C8: without the master access key type the test handler raises
AccessKeyNotAccepted with an empty trace, so nothing is sent. -/
theorem test_email_requires_master_key (settings : Settings)
    (mail_sender : TemplateMailSender) (env : MailEnv)
    (access_key_type : Option String) (email : String)
    (text_template html_template : Option String)
    (h : access_key_type ≠ some "master") :
    test_forgot_password_email settings mail_sender env access_key_type email
      text_template html_template =
      (Except.error ⟨"master key is required", ErrorCode.AccessKeyNotAccepted⟩,
       []) := by
  unfold test_forgot_password_email
  have hb : (access_key_type != some "master") = true := bne_iff_ne.mpr h
  simp [hb]

/-- Witness for C8: a caller context with no access key type. -/
theorem test_email_requires_master_key_witness :
    (none : Option String) ≠ some "master" ∧
    test_forgot_password_email sampleSettings sampleSender sampleEnv none
      "op@example.com" none none =
      (Except.error ⟨"master key is required", ErrorCode.AccessKeyNotAccepted⟩,
       []) :=
  ⟨by decide, test_email_requires_master_key sampleSettings sampleSender
    sampleEnv none "op@example.com" none none (by decide)⟩

end ForgotPassword
